import Mathlib

/-!
Verification of the RGB2YCbCr fixed-point conversion pipeline and its software
testbench (RGB2YCbCr.cpp).

The development embeds the program shallowly:

* the SmartHLS fixed-point type ap_fixpt<18, 12> (Q12.6, 6 fractional bits) is
  represented by its underlying scaled integer (scale 64); all arithmetic in the
  datapath (multiply by an 8-bit channel, add, arithmetic right shift) is exact
  at this scale, matching the widening semantics of the HLS library;
* the floating-point reference RGB2YCbCr_sw is embedded over the exact rational
  numbers with the decimal coefficients written in the source; float rounding
  noise is abstracted away (the decimal value is the intended constant);
* the streaming FIFO interface is a bounded queue whose read fails on an empty
  queue and whose write fails on a full queue;
* the testbench main is a fold of the per-sample check over the swept inputs.
-/

/-- RGB sample: three 8-bit unsigned channels (struct RGB, lines 13-17). -/
structure RGB where
  R : ℕ
  G : ℕ
  B : ℕ
deriving DecidableEq, Repr

/-- YCbCr sample: three 8-bit unsigned channels (struct YCbCr, lines 20-24). -/
structure YCbCr where
  Y : ℕ
  Cb : ℕ
  Cr : ℕ
deriving DecidableEq, Repr

/-- Modelled from the spec: the header hls/ap_fixpt.hpp is not part of this
repository.  Per section 4.1, fixpt_t is the Q12.6 signed fixed-point type
ap_fixpt<18, 12> (scale 2^6 = 64) and construction from a decimal literal
rounds to the nearest representable multiple of 1/64.  A value is represented
here by its underlying scaled integer; the constructor takes the literal as an
exact fraction num/den and returns round(num/den * 64), computed with integer
floor division as floor((2*num*64 + den) / (2*den)). -/
def fixpt_t (num : ℤ) (den : ℕ) : ℤ :=
  (2 * num * 64 + den) / (2 * den)

/-- Modelled from the spec: arithmetic right shift by 8 of a Q12.6 value
(section 4.2: realizes x/256 with truncation toward negative infinity).  On the
underlying scaled integer this is floor division by 256. -/
def shr8 (v : ℤ) : ℤ := v / 256

/-- Modelled from the spec: conversion of a Q12.6 value to the unsigned 8-bit
output field (section 4.1: truncates the fractional part; no explicit saturating
clamp, so the integer part wraps to 8 bits).  On the underlying scaled integer:
drop the 6 fractional bits (floor division by 64), keep the low 8 bits. -/
def toU8 (v : ℤ) : ℕ := ((v / 64) % 256).toNat

/-- Underlying Q12.6 value assigned to ycbcr.Y (line 42):
fixpt_t(4) + ((fixpt_t(65.738)*R + fixpt_t(129.057)*G + fixpt_t(25.064)*B) >> 8)
+ fixpt_t(0.5). -/
def yAccum (p : RGB) : ℤ :=
  fixpt_t 4 1 +
    shr8 (fixpt_t 65738 1000 * p.R + fixpt_t 129057 1000 * p.G +
      fixpt_t 25064 1000 * p.B) +
    fixpt_t 1 2

/-- Underlying Q12.6 value assigned to ycbcr.Cb (line 43):
fixpt_t(128) - ((fixpt_t(37.945)*R + fixpt_t(74.494)*G - fixpt_t(112.439)*B) >> 8)
+ fixpt_t(0.5). -/
def cbAccum (p : RGB) : ℤ :=
  fixpt_t 128 1 -
    shr8 (fixpt_t 37945 1000 * p.R + fixpt_t 74494 1000 * p.G -
      fixpt_t 112439 1000 * p.B) +
    fixpt_t 1 2

/-- Underlying Q12.6 value assigned to ycbcr.Cr (line 44):
fixpt_t(128) + ((fixpt_t(112.439)*R - fixpt_t(94.154)*G - fixpt_t(18.285)*B) >> 8)
+ fixpt_t(0.5). -/
def crAccum (p : RGB) : ℤ :=
  fixpt_t 128 1 +
    shr8 (fixpt_t 112439 1000 * p.R - fixpt_t 94154 1000 * p.G -
      fixpt_t 18285 1000 * p.B) +
    fixpt_t 1 2

/-- The combinational datapath of RGB2YCbCr_smarthls (lines 42-44): the three
fixed-point channel computations, each narrowed to the unsigned 8-bit output
field. -/
def convertPixel (p : RGB) : YCbCr :=
  { Y := toU8 (yAccum p), Cb := toU8 (cbAccum p), Cr := toU8 (crAccum p) }

/-- Modelled from the spec: the header hls/streaming.hpp is not part of this
repository.  Per sections 2-3, hls::FIFO<T> is a bounded FIFO queue with a fixed
capacity; reading an empty queue and writing a full queue are channel-discipline
violations (modelled as failure, i.e. none). -/
structure FIFO (α : Type) where
  capacity : ℕ
  buf : List α
deriving DecidableEq, Repr

/-- FIFO read: fails on an empty queue, otherwise returns the oldest element
and the remaining queue. -/
def FIFO.read {α : Type} (f : FIFO α) : Option (α × FIFO α) :=
  match f.buf with
  | [] => none
  | x :: rest => some (x, ⟨f.capacity, rest⟩)

/-- FIFO write: fails on a full queue, otherwise appends the element. -/
def FIFO.write {α : Type} (f : FIFO α) (x : α) : Option (FIFO α) :=
  if f.buf.length < f.capacity then some ⟨f.capacity, f.buf ++ [x]⟩ else none

/-- The top-level streaming function RGB2YCbCr_smarthls (lines 31-47): read one
RGB sample from the input FIFO, convert it, write the result to the output
FIFO.  Returns the two updated FIFOs, or none on a channel-discipline
violation. -/
def RGB2YCbCr_smarthls (input_fifo : FIFO RGB) (output_fifo : FIFO YCbCr) :
    Option (FIFO RGB × FIFO YCbCr) :=
  match input_fifo.read with
  | none => none
  | some (inp, input_fifo') =>
    match output_fifo.write (convertPixel inp) with
    | none => none
    | some output_fifo' => some (input_fifo', output_fifo')

/-- The clamp helper (lines 50-52): clamp a real value to [0, 255], then cast
to an unsigned 8-bit integer.  The cast truncates (for the clamped, nonnegative
value this is the floor). -/
def clamp (value : ℚ) : ℕ :=
  (Rat.floor (max 0 (min 255 value))).toNat

/-- The floating-point software reference RGB2YCbCr_sw (lines 66-73), embedded
over the exact rationals with the decimal coefficients of the source. -/
def RGB2YCbCr_sw (R G B : ℕ) : ℕ × ℕ × ℕ :=
  let Y  : ℚ :=  0.299 * R + 0.587 * G + 0.114 * B
  let Cb : ℚ := -0.169 * R - 0.332 * G + 0.5 * B + 128
  let Cr : ℚ :=  0.5 * R - 0.419 * G - 0.0813 * B + 128
  (clamp Y, clamp Cb, clamp Cr)

/-- THRESHOLD (line 8): the fixed comparison tolerance. -/
def THRESHOLD : ℕ := 5

/-- compareAndReport (lines 75-83): absolute difference of the two 8-bit
values; returns 1 (mismatch) when it exceeds the threshold, else 0.  The
diagnostic printf is a side effect outside the value model. -/
def compareAndReport (actual expected : ℕ) (threshold : ℕ) : ℕ :=
  if threshold < (|(actual : ℤ) - (expected : ℤ)|).toNat then 1 else 0

/-- The error contribution of one testbench iteration (lines 104-115): the
fixed-point pipeline output is compared channel by channel against the software
reference, each comparison contributing 0 or 1. -/
def checkSample (r g b : ℕ) : ℕ :=
  let out := convertPixel ⟨r, g, b⟩
  let ycbcr := RGB2YCbCr_sw r g b
  compareAndReport out.Y ycbcr.1 THRESHOLD +
    compareAndReport out.Cb ycbcr.2.1 THRESHOLD +
    compareAndReport out.Cr ycbcr.2.2 THRESHOLD

/-- One iteration of the testbench loop body (lines 100-115): write the RGB
sample into the input FIFO, run the pipeline, read the result from the output
FIFO, compare against the software reference and accumulate the error count. -/
def mainIter (st : FIFO RGB × FIFO YCbCr × ℕ) (x : ℕ × ℕ × ℕ) :
    Option (FIFO RGB × FIFO YCbCr × ℕ) :=
  match st.1.write ⟨x.1, x.2.1, x.2.2⟩ with
  | none => none
  | some input_fifo' =>
    match RGB2YCbCr_smarthls input_fifo' st.2.1 with
    | none => none
    | some (input_fifo'', output_fifo') =>
      match output_fifo'.read with
      | none => none
      | some (out, output_fifo'') =>
        let ycbcr := RGB2YCbCr_sw x.1 x.2.1 x.2.2
        some (input_fifo'', output_fifo'',
          st.2.2 + compareAndReport out.Y ycbcr.1 THRESHOLD +
            compareAndReport out.Cb ycbcr.2.1 THRESHOLD +
            compareAndReport out.Cr ycbcr.2.2 THRESHOLD)

/-- The swept test inputs (lines 97-102): all (i, j, k) with each component in
0..63, in loop order. -/
def sweepInputs : List (ℕ × ℕ × ℕ) :=
  (List.range 64).flatMap fun i =>
    (List.range 64).flatMap fun j =>
      (List.range 64).map fun k => (i, j, k)

/-- The testbench loop (lines 97-118): thread the FIFO pair and the error
accumulator through the iterations; a channel-discipline violation aborts. -/
def runSweep : List (ℕ × ℕ × ℕ) → (FIFO RGB × FIFO YCbCr × ℕ) →
    Option (FIFO RGB × FIFO YCbCr × ℕ)
  | [], st => some st
  | x :: rest, st =>
    match mainIter st x with
    | none => none
    | some st' => runSweep rest st'

/-- The whole run of main (lines 86-118): FIFOs of capacity 5, error count 0,
sweep all inputs. -/
def mainRun : Option (FIFO RGB × FIFO YCbCr × ℕ) :=
  runSweep sweepInputs (⟨5, []⟩, ⟨5, []⟩, 0)

/-- The final error count of main (err after the loop; 0 is also what an
aborted run would report before the summary, but mainRun is proven to
complete). -/
def mainErr : ℕ := (Option.map (fun st => st.2.2) mainRun).getD 0

/-- Whether main prints PASS (lines 122-126): err == 0. -/
def mainPassed : Bool := mainErr == 0

/-- The value returned by main (line 128): the error count itself. -/
def mainExitStatus : ℕ := mainErr

/-! ### Bridge lemmas: fixed-point constants and clamp characterization -/

/-- The fixed-point constructor agrees with round-to-nearest of the scaled
value, as the spec describes it. -/
lemma fixpt_t_eq_round (num : ℤ) (den : ℕ) (hd : 0 < den) :
    fixpt_t num den = round (((num : ℚ) / den) * 64) := by
  rw [round_eq, fixpt_t]
  have hden : ((den : ℚ)) ≠ 0 := by positivity
  have h : (num : ℚ) / den * 64 + 1 / 2 =
      ((2 * num * 64 + den : ℤ) : ℚ) / ((2 * den : ℕ) : ℚ) := by
    push_cast
    field_simp
    ring
  rw [h, Rat.floor_intCast_div_natCast]
  push_cast
  ring_nf

lemma ratFloor_eq_floor (a : ℚ) : Rat.floor a = ⌊a⌋ := by
  rw [Rat.floor_def', Rat.floor_def]

/-- clamp of an exact fraction, characterized over the integers. -/
lemma clamp_eq (n : ℤ) (d : ℕ) (hd : 0 < d) :
    (clamp ((n : ℚ) / (d : ℚ)) : ℤ) = max 0 (min 255 (n / (d : ℤ))) := by
  have hfl : ⌊((n : ℚ) / (d : ℚ))⌋ = n / (d : ℤ) := Rat.floor_intCast_div_natCast n d
  have hfl255 : ⌊(255 : ℚ)⌋ = 255 := by
    rw [show (255 : ℚ) = ((255 : ℤ) : ℚ) by norm_num, Int.floor_intCast]
  rcases le_total (255 : ℚ) ((n : ℚ) / (d : ℚ)) with h255 | h255
  · have h2 : (255 : ℤ) ≤ n / (d : ℤ) := by
      rw [← hfl, ← hfl255]
      exact Int.floor_le_floor h255
    rw [clamp, ratFloor_eq_floor, min_eq_left h255,
      max_eq_right (by norm_num : (0 : ℚ) ≤ 255), hfl255,
      min_eq_left h2, max_eq_right (by omega : (0 : ℤ) ≤ 255)]
    rfl
  · have h2 : n / (d : ℤ) ≤ 255 := by
      rw [← hfl, ← hfl255]
      exact Int.floor_le_floor h255
    rcases le_total ((n : ℚ) / (d : ℚ)) 0 with h0 | h0
    · have h3 : n / (d : ℤ) ≤ 0 := by
        rw [← hfl, ← (by exact Int.floor_intCast 0 : ⌊((0 : ℤ) : ℚ)⌋ = 0)]
        exact Int.floor_le_floor (by exact_mod_cast h0)
      rw [clamp, ratFloor_eq_floor, min_eq_right h255, max_eq_left h0,
        min_eq_right h2, max_eq_left h3]
      simp
    · have h4 : (0 : ℤ) ≤ n / (d : ℤ) := by
        rw [← hfl]
        exact Int.floor_nonneg.mpr h0
      rw [clamp, ratFloor_eq_floor, min_eq_right h255, max_eq_right h0,
        Int.toNat_of_nonneg (hfl ▸ h4), hfl, min_eq_right h2, max_eq_right h4]

/-! ### Per-channel closed integer forms of the software reference -/

lemma sw_Y_eq (r g b : ℕ) :
    (((RGB2YCbCr_sw r g b).1 : ℕ) : ℤ) =
      max 0 (min 255 ((299 * (r : ℤ) + 587 * g + 114 * b) / 1000)) := by
  have hq : (0.299 * (r : ℚ) + 0.587 * (g : ℚ) + 0.114 * (b : ℚ)) =
      (((299 * (r : ℤ) + 587 * g + 114 * b) : ℤ) : ℚ) / ((1000 : ℕ) : ℚ) := by
    push_cast
    ring
  have h := clamp_eq (299 * (r : ℤ) + 587 * g + 114 * b) 1000 (by norm_num)
  simp only [RGB2YCbCr_sw]
  rw [hq, h]
  norm_num

lemma sw_Cb_eq (r g b : ℕ) :
    (((RGB2YCbCr_sw r g b).2.1 : ℕ) : ℤ) =
      max 0 (min 255 ((-169 * (r : ℤ) - 332 * g + 500 * b + 128000) / 1000)) := by
  have hq : (-0.169 * (r : ℚ) - 0.332 * (g : ℚ) + 0.5 * (b : ℚ) + 128) =
      (((-169 * (r : ℤ) - 332 * g + 500 * b + 128000) : ℤ) : ℚ) / ((1000 : ℕ) : ℚ) := by
    push_cast
    ring
  have h := clamp_eq (-169 * (r : ℤ) - 332 * g + 500 * b + 128000) 1000 (by norm_num)
  simp only [RGB2YCbCr_sw]
  rw [hq, h]
  norm_num

lemma sw_Cr_eq (r g b : ℕ) :
    (((RGB2YCbCr_sw r g b).2.2 : ℕ) : ℤ) =
      max 0 (min 255 ((5000 * (r : ℤ) - 4190 * g - 813 * b + 1280000) / 10000)) := by
  have hq : (0.5 * (r : ℚ) - 0.419 * (g : ℚ) - 0.0813 * (b : ℚ) + 128) =
      (((5000 * (r : ℤ) - 4190 * g - 813 * b + 1280000) : ℤ) : ℚ) / ((10000 : ℕ) : ℚ) := by
    push_cast
    ring
  have h := clamp_eq (5000 * (r : ℤ) - 4190 * g - 813 * b + 1280000) 10000 (by norm_num)
  simp only [RGB2YCbCr_sw]
  rw [hq, h]
  norm_num

/-! ### Per-channel closed integer forms of the fixed-point datapath -/

lemma fix_Y_eq (r g b : ℕ) :
    (((convertPixel ⟨r, g, b⟩).Y : ℕ) : ℤ) =
      ((4207 * (r : ℤ) + 8260 * g + 1604 * b) / 256 + 288) / 64 % 256 := by
  have c1 : fixpt_t 65738 1000 = 4207 := by decide
  have c2 : fixpt_t 129057 1000 = 8260 := by decide
  have c3 : fixpt_t 25064 1000 = 1604 := by decide
  have c4 : fixpt_t 4 1 = 256 := by decide
  have c5 : fixpt_t 1 2 = 32 := by decide
  simp only [convertPixel, yAccum, toU8, shr8, c1, c2, c3, c4, c5]
  rw [Int.toNat_of_nonneg (Int.emod_nonneg _ (by norm_num)),
    show (256 : ℤ) + (4207 * (r : ℤ) + 8260 * g + 1604 * b) / 256 + 32 =
      (4207 * (r : ℤ) + 8260 * g + 1604 * b) / 256 + 288 by ring]

lemma fix_Cb_eq (r g b : ℕ) :
    (((convertPixel ⟨r, g, b⟩).Cb : ℕ) : ℤ) =
      (8224 - (2428 * (r : ℤ) + 4768 * g - 7196 * b) / 256) / 64 % 256 := by
  have c1 : fixpt_t 37945 1000 = 2428 := by decide
  have c2 : fixpt_t 74494 1000 = 4768 := by decide
  have c3 : fixpt_t 112439 1000 = 7196 := by decide
  have c4 : fixpt_t 128 1 = 8192 := by decide
  have c5 : fixpt_t 1 2 = 32 := by decide
  simp only [convertPixel, cbAccum, toU8, shr8, c1, c2, c3, c4, c5]
  rw [Int.toNat_of_nonneg (Int.emod_nonneg _ (by norm_num)),
    show (8192 : ℤ) - (2428 * (r : ℤ) + 4768 * g - 7196 * b) / 256 + 32 =
      8224 - (2428 * (r : ℤ) + 4768 * g - 7196 * b) / 256 by ring]

lemma fix_Cr_eq (r g b : ℕ) :
    (((convertPixel ⟨r, g, b⟩).Cr : ℕ) : ℤ) =
      ((7196 * (r : ℤ) - 6026 * g - 1170 * b) / 256 + 8224) / 64 % 256 := by
  have c1 : fixpt_t 112439 1000 = 7196 := by decide
  have c2 : fixpt_t 94154 1000 = 6026 := by decide
  have c3 : fixpt_t 18285 1000 = 1170 := by decide
  have c4 : fixpt_t 128 1 = 8192 := by decide
  have c5 : fixpt_t 1 2 = 32 := by decide
  simp only [convertPixel, crAccum, toU8, shr8, c1, c2, c3, c4, c5]
  rw [Int.toNat_of_nonneg (Int.emod_nonneg _ (by norm_num)),
    show (8192 : ℤ) + (7196 * (r : ℤ) - 6026 * g - 1170 * b) / 256 + 32 =
      (7196 * (r : ℤ) - 6026 * g - 1170 * b) / 256 + 8224 by ring]

/-! ### Cube bounds: the per-channel difference on the swept range 0..63 -/

/-- Abstract arithmetic core for the Y channel: with i = accum/256,
e = (i+288)/64 and j = ref/1000 presented by their division identities, the
narrowed fixed-point Y stays in range and within 5 of the reference. -/
lemma cubeY_core (a c d i e j s1 s2 t : ℤ)
    (ha : 0 ≤ a) (ha' : a ≤ 63) (hc : 0 ≤ c) (hc' : c ≤ 63)
    (hd : 0 ≤ d) (hd' : d ≤ 63)
    (h1 : 256 * i + s1 = 4207 * a + 8260 * c + 1604 * d)
    (hs1 : 0 ≤ s1) (hs1' : s1 < 256)
    (h2 : 64 * e + s2 = i + 288) (hs2 : 0 ≤ s2) (hs2' : s2 < 64)
    (h3 : 1000 * j + t = 299 * a + 587 * c + 114 * d)
    (ht : 0 ≤ t) (ht' : t < 1000) :
    4 ≤ e ∧ e ≤ 58 ∧ 0 ≤ j ∧ j ≤ 63 ∧ (e - j).natAbs ≤ 5 := by
  have key1 : 16384000 * e - 16384000 * j < 98304000 := by linarith
  have key2 : -98304000 < 16384000 * e - 16384000 * j := by linarith
  refine ⟨by omega, by omega, by omega, by omega, by omega⟩

/-- Abstract arithmetic core for the Cb channel. -/
lemma cubeCb_core (a c d i e j s1 s2 t : ℤ)
    (ha : 0 ≤ a) (ha' : a ≤ 63) (hc : 0 ≤ c) (hc' : c ≤ 63)
    (hd : 0 ≤ d) (hd' : d ≤ 63)
    (h1 : 256 * i + s1 = 2428 * a + 4768 * c - 7196 * d)
    (hs1 : 0 ≤ s1) (hs1' : s1 < 256)
    (h2 : 64 * e + s2 = 8224 - i) (hs2 : 0 ≤ s2) (hs2' : s2 < 64)
    (h3 : 1000 * j + t = -169 * a - 332 * c + 500 * d + 128000)
    (ht : 0 ≤ t) (ht' : t < 1000) :
    100 ≤ e ∧ e ≤ 156 ∧ 96 ≤ j ∧ j ≤ 159 ∧ (e - j).natAbs ≤ 5 := by
  have key1 : 16384000 * e - 16384000 * j < 98304000 := by linarith
  have key2 : -98304000 < 16384000 * e - 16384000 * j := by linarith
  refine ⟨by omega, by omega, by omega, by omega, by omega⟩

/-- Abstract arithmetic core for the Cr channel. -/
lemma cubeCr_core (a c d i e j s1 s2 t : ℤ)
    (ha : 0 ≤ a) (ha' : a ≤ 63) (hc : 0 ≤ c) (hc' : c ≤ 63)
    (hd : 0 ≤ d) (hd' : d ≤ 63)
    (h1 : 256 * i + s1 = 7196 * a - 6026 * c - 1170 * d)
    (hs1 : 0 ≤ s1) (hs1' : s1 < 256)
    (h2 : 64 * e + s2 = i + 8224) (hs2 : 0 ≤ s2) (hs2' : s2 < 64)
    (h3 : 10000 * j + t = 5000 * a - 4190 * c - 813 * d + 1280000)
    (ht : 0 ≤ t) (ht' : t < 10000) :
    100 ≤ e ∧ e ≤ 156 ∧ 96 ≤ j ∧ j ≤ 159 ∧ (e - j).natAbs ≤ 5 := by
  have key1 : 163840000 * e - 163840000 * j < 983040000 := by linarith
  have key2 : -983040000 < 163840000 * e - 163840000 * j := by linarith
  refine ⟨by omega, by omega, by omega, by omega, by omega⟩

/-- On the swept range 0..63, the fixed-point Y is within 5 of the reference
Y. -/
lemma diffY_le (r g b : ℕ) (hr : r ≤ 63) (hg : g ≤ 63) (hb : b ≤ 63) :
    (((convertPixel ⟨r, g, b⟩).Y : ℤ) - ((RGB2YCbCr_sw r g b).1 : ℤ)).natAbs ≤ 5 := by
  rw [fix_Y_eq, sw_Y_eq]
  obtain ⟨h4, h58, hj0, hj63, habs⟩ :=
    cubeY_core (r : ℤ) g b
      ((4207 * (r : ℤ) + 8260 * g + 1604 * b) / 256)
      (((4207 * (r : ℤ) + 8260 * g + 1604 * b) / 256 + 288) / 64)
      ((299 * (r : ℤ) + 587 * g + 114 * b) / 1000)
      ((4207 * (r : ℤ) + 8260 * g + 1604 * b) % 256)
      (((4207 * (r : ℤ) + 8260 * g + 1604 * b) / 256 + 288) % 64)
      ((299 * (r : ℤ) + 587 * g + 114 * b) % 1000)
      (Int.natCast_nonneg r) (by exact_mod_cast hr)
      (Int.natCast_nonneg g) (by exact_mod_cast hg)
      (Int.natCast_nonneg b) (by exact_mod_cast hb)
      (Int.ediv_add_emod _ 256) (Int.emod_nonneg _ (by norm_num))
      (Int.emod_lt_of_pos _ (by norm_num))
      (Int.ediv_add_emod _ 64) (Int.emod_nonneg _ (by norm_num))
      (Int.emod_lt_of_pos _ (by norm_num))
      (Int.ediv_add_emod _ 1000) (Int.emod_nonneg _ (by norm_num))
      (Int.emod_lt_of_pos _ (by norm_num))
  rw [Int.emod_eq_of_lt (by omega) (by omega),
    min_eq_right (by omega : (299 * (r : ℤ) + 587 * g + 114 * b) / 1000 ≤ 255),
    max_eq_right hj0]
  exact habs

/-- On the swept range 0..63, the fixed-point Cb is within 5 of the reference
Cb. -/
lemma diffCb_le (r g b : ℕ) (hr : r ≤ 63) (hg : g ≤ 63) (hb : b ≤ 63) :
    (((convertPixel ⟨r, g, b⟩).Cb : ℤ) - ((RGB2YCbCr_sw r g b).2.1 : ℤ)).natAbs ≤ 5 := by
  rw [fix_Cb_eq, sw_Cb_eq]
  obtain ⟨h4, h58, hj0, hj63, habs⟩ :=
    cubeCb_core (r : ℤ) g b
      ((2428 * (r : ℤ) + 4768 * g - 7196 * b) / 256)
      ((8224 - (2428 * (r : ℤ) + 4768 * g - 7196 * b) / 256) / 64)
      ((-169 * (r : ℤ) - 332 * g + 500 * b + 128000) / 1000)
      ((2428 * (r : ℤ) + 4768 * g - 7196 * b) % 256)
      ((8224 - (2428 * (r : ℤ) + 4768 * g - 7196 * b) / 256) % 64)
      ((-169 * (r : ℤ) - 332 * g + 500 * b + 128000) % 1000)
      (Int.natCast_nonneg r) (by exact_mod_cast hr)
      (Int.natCast_nonneg g) (by exact_mod_cast hg)
      (Int.natCast_nonneg b) (by exact_mod_cast hb)
      (Int.ediv_add_emod _ 256) (Int.emod_nonneg _ (by norm_num))
      (Int.emod_lt_of_pos _ (by norm_num))
      (Int.ediv_add_emod _ 64) (Int.emod_nonneg _ (by norm_num))
      (Int.emod_lt_of_pos _ (by norm_num))
      (Int.ediv_add_emod _ 1000) (Int.emod_nonneg _ (by norm_num))
      (Int.emod_lt_of_pos _ (by norm_num))
  rw [Int.emod_eq_of_lt (by omega) (by omega),
    min_eq_right (by omega :
      (-169 * (r : ℤ) - 332 * g + 500 * b + 128000) / 1000 ≤ 255),
    max_eq_right (by omega :
      (0 : ℤ) ≤ (-169 * (r : ℤ) - 332 * g + 500 * b + 128000) / 1000)]
  exact habs

/-- On the swept range 0..63, the fixed-point Cr is within 5 of the reference
Cr. -/
lemma diffCr_le (r g b : ℕ) (hr : r ≤ 63) (hg : g ≤ 63) (hb : b ≤ 63) :
    (((convertPixel ⟨r, g, b⟩).Cr : ℤ) - ((RGB2YCbCr_sw r g b).2.2 : ℤ)).natAbs ≤ 5 := by
  rw [fix_Cr_eq, sw_Cr_eq]
  obtain ⟨h4, h58, hj0, hj63, habs⟩ :=
    cubeCr_core (r : ℤ) g b
      ((7196 * (r : ℤ) - 6026 * g - 1170 * b) / 256)
      (((7196 * (r : ℤ) - 6026 * g - 1170 * b) / 256 + 8224) / 64)
      ((5000 * (r : ℤ) - 4190 * g - 813 * b + 1280000) / 10000)
      ((7196 * (r : ℤ) - 6026 * g - 1170 * b) % 256)
      (((7196 * (r : ℤ) - 6026 * g - 1170 * b) / 256 + 8224) % 64)
      ((5000 * (r : ℤ) - 4190 * g - 813 * b + 1280000) % 10000)
      (Int.natCast_nonneg r) (by exact_mod_cast hr)
      (Int.natCast_nonneg g) (by exact_mod_cast hg)
      (Int.natCast_nonneg b) (by exact_mod_cast hb)
      (Int.ediv_add_emod _ 256) (Int.emod_nonneg _ (by norm_num))
      (Int.emod_lt_of_pos _ (by norm_num))
      (Int.ediv_add_emod _ 64) (Int.emod_nonneg _ (by norm_num))
      (Int.emod_lt_of_pos _ (by norm_num))
      (Int.ediv_add_emod _ 10000) (Int.emod_nonneg _ (by norm_num))
      (Int.emod_lt_of_pos _ (by norm_num))
  rw [Int.emod_eq_of_lt (by omega) (by omega),
    min_eq_right (by omega :
      (5000 * (r : ℤ) - 4190 * g - 813 * b + 1280000) / 10000 ≤ 255),
    max_eq_right (by omega :
      (0 : ℤ) ≤ (5000 * (r : ℤ) - 4190 * g - 813 * b + 1280000) / 10000)]
  exact habs

/-- On the swept range, all three channel comparisons pass, so one iteration
contributes no error. -/
lemma checkSample_eq_zero (r g b : ℕ) (hr : r ≤ 63) (hg : g ≤ 63) (hb : b ≤ 63) :
    checkSample r g b = 0 := by
  have h1 := diffY_le r g b hr hg hb
  have h2 := diffCb_le r g b hr hg hb
  have h3 := diffCr_le r g b hr hg hb
  simp only [checkSample, compareAndReport, THRESHOLD, Int.abs_eq_natAbs,
    Int.toNat_natCast]
  rw [if_neg (by omega), if_neg (by omega), if_neg (by omega)]

/-- Starting from the steady state (both FIFOs empty), one testbench iteration
always succeeds, returns to the steady state and adds the per-sample error. -/
lemma mainIter_step (err : ℕ) (x : ℕ × ℕ × ℕ) :
    mainIter (⟨5, []⟩, ⟨5, []⟩, err) x =
      some (⟨5, []⟩, ⟨5, []⟩, err + checkSample x.1 x.2.1 x.2.2) := by
  simp [mainIter, FIFO.write, FIFO.read, RGB2YCbCr_smarthls, checkSample,
    Nat.add_assoc]

/-- The testbench loop, run from the steady state, completes and accumulates
exactly the sum of the per-sample errors. -/
lemma runSweep_clean (l : List (ℕ × ℕ × ℕ)) (err : ℕ) :
    runSweep l (⟨5, []⟩, ⟨5, []⟩, err) =
      some (⟨5, []⟩, ⟨5, []⟩,
        err + (l.map (fun x => checkSample x.1 x.2.1 x.2.2)).sum) := by
  induction l generalizing err with
  | nil => simp [runSweep]
  | cons x rest ih =>
    simp only [runSweep, mainIter_step]
    rw [ih]
    simp [Nat.add_assoc]

/-- The whole testbench run completes (no channel-discipline violation) with
the summed per-sample error. -/
lemma mainRun_eq :
    mainRun = some (⟨5, []⟩, ⟨5, []⟩,
      (sweepInputs.map (fun x => checkSample x.1 x.2.1 x.2.2)).sum) := by
  have h := runSweep_clean sweepInputs 0
  rw [Nat.zero_add] at h
  exact h

/-- The final error count is the sum of the per-sample errors over the swept
inputs. -/
lemma mainErr_eq :
    mainErr = (sweepInputs.map (fun x => checkSample x.1 x.2.1 x.2.2)).sum := by
  show (Option.map (fun st => st.2.2) mainRun).getD 0 = _
  rw [mainRun_eq, Option.map_some', Option.getD_some]

/-- Every swept sample contributes zero error. -/
lemma sweep_sum_zero :
    (sweepInputs.map (fun x => checkSample x.1 x.2.1 x.2.2)).sum = 0 := by
  apply List.sum_eq_zero
  intro n hn
  rw [List.mem_map] at hn
  obtain ⟨x, hx, rfl⟩ := hn
  simp only [sweepInputs, List.mem_flatMap, List.mem_map, List.mem_range] at hx
  obtain ⟨i, hi, j, hj, k, hk, rfl⟩ := hx
  exact checkSample_eq_zero i j k (by omega) (by omega) (by omega)

/-- Sum of a constant over List.range. -/
lemma sum_map_const_range (n c : ℕ) : ((List.range n).map (fun _ => c)).sum = n * c := by
  induction n with
  | zero => simp
  | succ m ih =>
    rw [List.range_succ, List.map_append, List.sum_append]
    simp [ih, Nat.succ_mul]

/-- The sweep visits 64 * 64 * 64 = 262144 samples. -/
lemma sweepInputs_length : sweepInputs.length = 262144 := by
  simp only [sweepInputs, List.length_flatMap, List.map_map, Function.comp_def,
    List.length_map, List.length_range, sum_map_const_range]

/-! ### Claim theorems -/

/-- Claim C1, counterexample: at the 8-bit input (255, 255, 255) the Y channel
of the fixed-point pipeline differs from the floating-point reference by more
than 5 (it is 223 against 255, a difference of 32), so the claimed bound does
not hold for every 8-bit RGB input. -/
theorem claim_C1_counterexample :
    5 < (((convertPixel ⟨255, 255, 255⟩).Y : ℤ) -
      ((RGB2YCbCr_sw 255 255 255).1 : ℤ)).natAbs := by
  rw [fix_Y_eq, sw_Y_eq]
  omega

/-- Claim C1, amended: for every RGB input with all channels in 0..63 (the
range the harness actually sweeps), the per-channel absolute difference
between the fixed-point pipeline output and the floating-point reference
output is at most 5 for each of Y, Cb and Cr. -/
theorem claim_C1_amended (r g b : ℕ) (hr : r ≤ 63) (hg : g ≤ 63) (hb : b ≤ 63) :
    (((convertPixel ⟨r, g, b⟩).Y : ℤ) - ((RGB2YCbCr_sw r g b).1 : ℤ)).natAbs ≤ 5 ∧
    (((convertPixel ⟨r, g, b⟩).Cb : ℤ) - ((RGB2YCbCr_sw r g b).2.1 : ℤ)).natAbs ≤ 5 ∧
    (((convertPixel ⟨r, g, b⟩).Cr : ℤ) - ((RGB2YCbCr_sw r g b).2.2 : ℤ)).natAbs ≤ 5 :=
  ⟨diffY_le r g b hr hg hb, diffCb_le r g b hr hg hb, diffCr_le r g b hr hg hb⟩

/-- Claim C1, witness: the amended bound instantiated at (63, 63, 63). -/
theorem claim_C1_witness :
    (((convertPixel ⟨63, 63, 63⟩).Y : ℤ) - ((RGB2YCbCr_sw 63 63 63).1 : ℤ)).natAbs ≤ 5 ∧
    (((convertPixel ⟨63, 63, 63⟩).Cb : ℤ) - ((RGB2YCbCr_sw 63 63 63).2.1 : ℤ)).natAbs ≤ 5 ∧
    (((convertPixel ⟨63, 63, 63⟩).Cr : ℤ) - ((RGB2YCbCr_sw 63 63 63).2.2 : ℤ)).natAbs ≤ 5 :=
  claim_C1_amended 63 63 63 (by decide) (by decide) (by decide)

/-- Claim C2: the verification sweep over all of {0..63}^3 (262144 samples,
three channel comparisons each at threshold 5) produces total mismatch count
exactly 0. -/
theorem claim_C2_sweep_mismatch_zero :
    mainErr = 0 ∧ sweepInputs.length = 262144 ∧ THRESHOLD = 5 :=
  ⟨mainErr_eq.trans sweep_sum_zero, sweepInputs_length, rfl⟩

/-- The clamp truncates: its result is at most the clamped value and greater
than the clamped value minus one (floor-like narrowing, no rounding). -/
lemma clamp_truncates (q : ℚ) :
    (clamp q : ℚ) ≤ max 0 (min 255 q) ∧ max 0 (min 255 q) - 1 < (clamp q : ℚ) := by
  have h0 : (0 : ℚ) ≤ max 0 (min 255 q) := le_max_left _ _
  have hnn : (0 : ℤ) ≤ ⌊max 0 (min 255 q)⌋ := Int.floor_nonneg.mpr h0
  have hcast : (clamp q : ℚ) = (⌊max 0 (min 255 q)⌋ : ℚ) := by
    rw [clamp, ratFloor_eq_floor]
    exact_mod_cast congrArg (fun z : ℤ => (z : ℚ)) (Int.toNat_of_nonneg hnn)
  rw [hcast]
  exact ⟨Int.floor_le _, Int.sub_one_lt_floor _⟩

/-- Claim C3: for every 8-bit RGB input the floating-point reference returns
channel values in [0, 255]; moreover clamp is clamp-then-truncate: the stored
channel is the floor of the value clamped to [0, 255] (never rounded up). -/
theorem claim_C3_reference_range :
    (∀ r g b : ℕ, r ≤ 255 → g ≤ 255 → b ≤ 255 →
      (RGB2YCbCr_sw r g b).1 ≤ 255 ∧ (RGB2YCbCr_sw r g b).2.1 ≤ 255 ∧
        (RGB2YCbCr_sw r g b).2.2 ≤ 255) ∧
    (∀ q : ℚ, (clamp q : ℚ) ≤ max 0 (min 255 q) ∧
      max 0 (min 255 q) - 1 < (clamp q : ℚ)) := by
  refine ⟨fun r g b _ _ _ => ?_, clamp_truncates⟩
  have h1 := sw_Y_eq r g b
  have h2 := sw_Cb_eq r g b
  have h3 := sw_Cr_eq r g b
  refine ⟨?_, ?_, ?_⟩ <;> omega

/-- Claim C3, witness: the range bound at the extreme input (255, 255, 255)
and the truncation bounds at the value 255.5 (which clamps to 255). -/
theorem claim_C3_witness :
    ((RGB2YCbCr_sw 255 255 255).1 ≤ 255 ∧ (RGB2YCbCr_sw 255 255 255).2.1 ≤ 255 ∧
      (RGB2YCbCr_sw 255 255 255).2.2 ≤ 255) ∧
    ((clamp (511 / 2) : ℚ) ≤ max 0 (min 255 (511 / 2)) ∧
      max 0 (min 255 (511 / 2 : ℚ)) - 1 < (clamp (511 / 2) : ℚ)) :=
  ⟨claim_C3_reference_range.1 255 255 255 (by decide) (by decide) (by decide),
    claim_C3_reference_range.2 (511 / 2)⟩

/-- Claim C4: compareAndReport returns 1 exactly when the absolute difference
of its 8-bit arguments exceeds the threshold and 0 otherwise; the testbench
applies it with the fixed threshold THRESHOLD = 5 identically to Y, Cb and
Cr. -/
theorem claim_C4_comparator :
    (∀ a e t : ℕ,
      (compareAndReport a e t = 1 ↔ t < ((a : ℤ) - (e : ℤ)).natAbs) ∧
      (compareAndReport a e t = 0 ↔ ((a : ℤ) - (e : ℤ)).natAbs ≤ t)) ∧
    THRESHOLD = 5 ∧
    (∀ r g b : ℕ, checkSample r g b =
      compareAndReport (convertPixel ⟨r, g, b⟩).Y (RGB2YCbCr_sw r g b).1 5 +
      compareAndReport (convertPixel ⟨r, g, b⟩).Cb (RGB2YCbCr_sw r g b).2.1 5 +
      compareAndReport (convertPixel ⟨r, g, b⟩).Cr (RGB2YCbCr_sw r g b).2.2 5) := by
  refine ⟨fun a e t => ?_, rfl, fun r g b => rfl⟩
  simp only [compareAndReport, Int.abs_eq_natAbs, Int.toNat_natCast]
  rcases Nat.lt_or_ge t ((a : ℤ) - (e : ℤ)).natAbs with h | h
  · simp [if_pos h, h, Nat.not_le_of_lt h]
  · simp [if_neg (Nat.not_lt.mpr h), h, Nat.not_lt.mpr h]

/-- Claim C4, witness: a mismatch at difference 10 and a match at difference
5, both against threshold 5. -/
theorem claim_C4_witness :
    compareAndReport 100 110 5 = 1 ∧ compareAndReport 105 100 5 = 0 :=
  ⟨(claim_C4_comparator.1 100 110 5).1.mpr (by norm_num),
    (claim_C4_comparator.1 105 100 5).2.mpr (by norm_num)⟩

/-- Claim C5: the harness accumulates the per-channel mismatches (each 0 or 1)
into a running total over the whole input sequence, prints PASS exactly when
the total is 0, and returns the total itself as the process termination
status. -/
theorem claim_C5_harness_verdict :
    mainExitStatus = mainErr ∧
    (mainPassed = true ↔ mainErr = 0) ∧
    mainErr = (sweepInputs.map (fun x => checkSample x.1 x.2.1 x.2.2)).sum ∧
    (∀ a e t : ℕ, compareAndReport a e t = 0 ∨ compareAndReport a e t = 1) := by
  refine ⟨rfl, ?_, mainErr_eq, fun a e t => ?_⟩
  · simp [mainPassed]
  · unfold compareAndReport
    split
    · right; rfl
    · left; rfl

/-- Claim C6, counterexample: converting the white point (255, 255, 255)
through the floating-point reference path does not give Cb = 128 and Cr = 128;
the coefficient rows sum to slightly less than zero and truncation gives 127
for both chroma channels. -/
theorem claim_C6_counterexample :
    (RGB2YCbCr_sw 255 255 255).2.1 ≠ 128 ∧ (RGB2YCbCr_sw 255 255 255).2.2 ≠ 128 := by
  have h2 := sw_Cb_eq 255 255 255
  have h3 := sw_Cr_eq 255 255 255
  constructor <;> omega

/-- Claim C6, amended: the reference maps the white point (255, 255, 255) to
exactly Y = 255, Cb = 127, Cr = 127 (chroma one below the neutral 128 because
the chroma coefficient rows sum to -0.001 and -0.0003 and the result is
truncated). -/
theorem claim_C6_amended : RGB2YCbCr_sw 255 255 255 = (255, 127, 127) := by
  have h1 := sw_Y_eq 255 255 255
  have h2 := sw_Cb_eq 255 255 255
  have h3 := sw_Cr_eq 255 255 255
  exact Prod.ext (by show (RGB2YCbCr_sw 255 255 255).1 = 255; omega)
    (Prod.ext (by show (RGB2YCbCr_sw 255 255 255).2.1 = 127; omega)
      (by show (RGB2YCbCr_sw 255 255 255).2.2 = 127; omega))

/-- Claim C7, counterexample: at the input (100, 150, 200) the fixed-point
pipeline Y output (125) differs from the reference Y (140) by 15, which is not
within 5. -/
theorem claim_C7_counterexample :
    5 < (((convertPixel ⟨100, 150, 200⟩).Y : ℤ) -
      ((RGB2YCbCr_sw 100 150 200).1 : ℤ)).natAbs := by
  rw [fix_Y_eq, sw_Y_eq]
  omega

/-- Claim C7, amended: the reference maps (100, 150, 200) to exactly
(140, 161, 98); the fixed-point Cb and Cr (157 and 102) lie within 5 of the
reference, but the fixed-point Y is 125, which differs from 140 by 15. -/
theorem claim_C7_amended :
    RGB2YCbCr_sw 100 150 200 = (140, 161, 98) ∧
    (convertPixel ⟨100, 150, 200⟩).Cb = 157 ∧
    (convertPixel ⟨100, 150, 200⟩).Cr = 102 ∧
    (((convertPixel ⟨100, 150, 200⟩).Cb : ℤ) -
      ((RGB2YCbCr_sw 100 150 200).2.1 : ℤ)).natAbs ≤ 5 ∧
    (((convertPixel ⟨100, 150, 200⟩).Cr : ℤ) -
      ((RGB2YCbCr_sw 100 150 200).2.2 : ℤ)).natAbs ≤ 5 ∧
    (((convertPixel ⟨100, 150, 200⟩).Y : ℤ) -
      ((RGB2YCbCr_sw 100 150 200).1 : ℤ)).natAbs = 15 := by
  have h1 := sw_Y_eq 100 150 200
  have h2 := sw_Cb_eq 100 150 200
  have h3 := sw_Cr_eq 100 150 200
  have f1 := fix_Y_eq 100 150 200
  have f2 := fix_Cb_eq 100 150 200
  have f3 := fix_Cr_eq 100 150 200
  exact ⟨Prod.ext (by show (RGB2YCbCr_sw 100 150 200).1 = 140; omega)
    (Prod.ext (by show (RGB2YCbCr_sw 100 150 200).2.1 = 161; omega)
      (by show (RGB2YCbCr_sw 100 150 200).2.2 = 98; omega)),
    by omega, by omega, by omega, by omega, by omega⟩

/-- Claim C8: when the input FIFO is nonempty and the output FIFO is not full,
one invocation of the converter reads exactly the oldest input sample, writes
exactly one output sample that is a function of that sample alone
(convertPixel), leaves the rest of the input queue and all previously written
output untouched, decreases the input occupancy by one and increases the
output occupancy by one; the function itself is pure, so no state persists
across invocations. -/
theorem claim_C8_stream_step (input_fifo : FIFO RGB) (output_fifo : FIFO YCbCr)
    (x : RGB) (rest : List RGB)
    (hin : input_fifo.buf = x :: rest)
    (hout : output_fifo.buf.length < output_fifo.capacity) :
    RGB2YCbCr_smarthls input_fifo output_fifo =
      some (⟨input_fifo.capacity, rest⟩,
        ⟨output_fifo.capacity, output_fifo.buf ++ [convertPixel x]⟩) ∧
    rest.length + 1 = input_fifo.buf.length ∧
    (output_fifo.buf ++ [convertPixel x]).length = output_fifo.buf.length + 1 := by
  refine ⟨?_, by simp [hin], by simp⟩
  simp [RGB2YCbCr_smarthls, FIFO.read, FIFO.write, hin, hout]

/-- Claim C8, witness: one step on a concrete input FIFO holding the single
sample (100, 150, 200) and an empty output FIFO of capacity 5. -/
theorem claim_C8_witness :
    RGB2YCbCr_smarthls ⟨5, [⟨100, 150, 200⟩]⟩ ⟨5, []⟩ =
      some (⟨5, []⟩, ⟨5, [] ++ [convertPixel ⟨100, 150, 200⟩]⟩) ∧
    ([] : List RGB).length + 1 = [(⟨100, 150, 200⟩ : RGB)].length ∧
    (([] : List YCbCr) ++ [convertPixel ⟨100, 150, 200⟩]).length =
      ([] : List YCbCr).length + 1 :=
  claim_C8_stream_step ⟨5, [⟨100, 150, 200⟩]⟩ ⟨5, []⟩ ⟨100, 150, 200⟩ [] rfl
    (by decide)

/-- Claim C9: for every 8-bit RGB input, each of the three Q12.6 channel
values (offset + shifted weighted sum + 0.5) lies in [0, 255] (at scale 64:
between 0 and 255 * 64) before narrowing, so the narrowing to the unsigned
8-bit field never wraps: the stored channel equals the plain truncation of the
fixed-point value, with the mod-256 wrap inactive. -/
theorem claim_C9_no_wrap (p : RGB) (hR : p.R ≤ 255) (hG : p.G ≤ 255)
    (hB : p.B ≤ 255) :
    (0 ≤ yAccum p ∧ yAccum p ≤ 255 * 64) ∧
    (0 ≤ cbAccum p ∧ cbAccum p ≤ 255 * 64) ∧
    (0 ≤ crAccum p ∧ crAccum p ≤ 255 * 64) ∧
    ((convertPixel p).Y : ℤ) = yAccum p / 64 ∧
    ((convertPixel p).Cb : ℤ) = cbAccum p / 64 ∧
    ((convertPixel p).Cr : ℤ) = crAccum p / 64 := by
  obtain ⟨r, g, b⟩ := p
  simp only at hR hG hB
  have c1 : fixpt_t 65738 1000 = 4207 := by decide
  have c2 : fixpt_t 129057 1000 = 8260 := by decide
  have c3 : fixpt_t 25064 1000 = 1604 := by decide
  have c4 : fixpt_t 37945 1000 = 2428 := by decide
  have c5 : fixpt_t 74494 1000 = 4768 := by decide
  have c6 : fixpt_t 112439 1000 = 7196 := by decide
  have c7 : fixpt_t 94154 1000 = 6026 := by decide
  have c8 : fixpt_t 18285 1000 = 1170 := by decide
  have c9 : fixpt_t 4 1 = 256 := by decide
  have c10 : fixpt_t 128 1 = 8192 := by decide
  have c11 : fixpt_t 1 2 = 32 := by decide
  have hr' : (r : ℤ) ≤ 255 := by exact_mod_cast hR
  have hg' : (g : ℤ) ≤ 255 := by exact_mod_cast hG
  have hb' : (b : ℤ) ≤ 255 := by exact_mod_cast hB
  have hr0 : (0 : ℤ) ≤ (r : ℤ) := Int.natCast_nonneg r
  have hg0 : (0 : ℤ) ≤ (g : ℤ) := Int.natCast_nonneg g
  have hb0 : (0 : ℤ) ≤ (b : ℤ) := Int.natCast_nonneg b
  simp only [convertPixel, yAccum, cbAccum, crAccum, toU8, shr8,
    c1, c2, c3, c4, c5, c6, c7, c8, c9, c10, c11]
  rw [Int.toNat_of_nonneg (Int.emod_nonneg _ (by norm_num)),
    Int.toNat_of_nonneg (Int.emod_nonneg _ (by norm_num)),
    Int.toNat_of_nonneg (Int.emod_nonneg _ (by norm_num))]
  refine ⟨⟨by omega, by omega⟩, ⟨by omega, by omega⟩, ⟨by omega, by omega⟩,
    by omega, by omega, by omega⟩

/-- Claim C9, witness: the bounds and the wrap-free narrowing at the extreme
input (255, 255, 255). -/
theorem claim_C9_witness :
    (0 ≤ yAccum ⟨255, 255, 255⟩ ∧ yAccum ⟨255, 255, 255⟩ ≤ 255 * 64) ∧
    (0 ≤ cbAccum ⟨255, 255, 255⟩ ∧ cbAccum ⟨255, 255, 255⟩ ≤ 255 * 64) ∧
    (0 ≤ crAccum ⟨255, 255, 255⟩ ∧ crAccum ⟨255, 255, 255⟩ ≤ 255 * 64) ∧
    ((convertPixel ⟨255, 255, 255⟩).Y : ℤ) = yAccum ⟨255, 255, 255⟩ / 64 ∧
    ((convertPixel ⟨255, 255, 255⟩).Cb : ℤ) = cbAccum ⟨255, 255, 255⟩ / 64 ∧
    ((convertPixel ⟨255, 255, 255⟩).Cr : ℤ) = crAccum ⟨255, 255, 255⟩ / 64 :=
  claim_C9_no_wrap ⟨255, 255, 255⟩ (by decide) (by decide) (by decide)

/-- Claim C10: the fixed-point pipeline maps the black point (0, 0, 0) to
exactly Y = 4 (the +4 offset plus 0.5 rounding bias, truncated), Cb = 128,
Cr = 128, while the reference maps it to (0, 128, 128); every channel
difference stays within the threshold 5, so the sample contributes no
mismatch. -/
theorem claim_C10_black_point :
    convertPixel ⟨0, 0, 0⟩ = ⟨4, 128, 128⟩ ∧
    RGB2YCbCr_sw 0 0 0 = (0, 128, 128) ∧
    checkSample 0 0 0 = 0 := by
  refine ⟨by decide, ?_, checkSample_eq_zero 0 0 0 (by decide) (by decide) (by decide)⟩
  have h1 := sw_Y_eq 0 0 0
  have h2 := sw_Cb_eq 0 0 0
  have h3 := sw_Cr_eq 0 0 0
  exact Prod.ext (by show (RGB2YCbCr_sw 0 0 0).1 = 0; omega)
    (Prod.ext (by show (RGB2YCbCr_sw 0 0 0).2.1 = 128; omega)
      (by show (RGB2YCbCr_sw 0 0 0).2.2 = 128; omega))
